import Mathlib

/-!
Verification development for `killableprocess.py` (python-process).

The module is shallowly embedded: the Python class `Popen` becomes two Lean
structures, one per platform branch (`Popen` for the POSIX branch, `WinPopen`
for the mswindows branch), OS interaction becomes explicit state passing on a
small operating-system state (`OSState` / `WinOS`), Python exceptions become
an `Except PyErr` result, and the two concurrent actors of the POSIX
`wait(timeout)` path (the calling thread and the `killerthread` timer) are
sequentialised according to which watcher fires first, with an explicit trace
of the observable actions (timer start, kill attempts, event set, join).
-/

namespace KillableProcess

/-- Python exceptions that the embedded code can raise. -/
inductive PyErr where
  /-- an `OSError` carrying its errno -/
  | osError (errno : Nat)
  /-- an unbound global name read at runtime (`NameError`) -/
  | nameError (n : String)
  /-- a plain `Exception`/`RuntimeError` with a message -/
  | exception (msg : String)
  /-- `CalledProcessError(returncode, cmd)` raised by `check_call` -/
  | calledProcessError (returncode : Int) (cmd : String)
deriving Repr, DecidableEq

instance {ε α : Type} [DecidableEq ε] [DecidableEq α] : DecidableEq (Except ε α) := fun x y =>
  match x, y with
  | .error a, .error b =>
      if h : a = b then .isTrue (by rw [h]) else .isFalse (fun hc => h (Except.error.inj hc))
  | .ok a, .ok b =>
      if h : a = b then .isTrue (by rw [h]) else .isFalse (fun hc => h (Except.ok.inj hc))
  | .error _, .ok _ => .isFalse (fun hc => Except.noConfusion hc)
  | .ok _, .error _ => .isFalse (fun hc => Except.noConfusion hc)

/-- errno of an interrupted system call. -/
def EINTR : Nat := 4
/-- errno of waiting when no child exists. -/
def ECHILD : Nat := 10
/-- errno of signalling a pid that does not exist. -/
def ESRCH : Nat := 3
/-- the non-catchable kill signal used by `Popen.kill`. -/
def SIGKILL : Nat := 9
/-- flag for a non-blocking reap (`os.WNOHANG`). -/
def WNOHANG : Nat := 1
/-- the module computes `WEXITED = 0` on every platform that is not aix5 and
lacks `os.WEXITED`; it is ORed into the wait options. -/
def WEXITED : Nat := 0

/-- Classic POSIX wait-status test: terminated by a signal (low seven bits are
neither 0, which means exited, nor 0x7f, which means stopped). -/
def WIFSIGNALED (sts : Nat) : Bool := sts % 128 != 0 && sts % 128 != 127

/-- Classic POSIX wait-status accessor: the terminating signal number. -/
def WTERMSIG (sts : Nat) : Nat := sts % 128

/-- Classic POSIX wait-status test: exited normally. -/
def WIFEXITED (sts : Nat) : Bool := sts % 128 == 0

/-- Classic POSIX wait-status accessor: the exit code byte. -/
def WEXITSTATUS (sts : Nat) : Nat := (sts / 256) % 256

/-- State of the one child process a handle owns, as the kernel sees it.
A running child carries the wait status and rusage it will eventually report;
a zombie has exited but has not been reaped; a reaped pid no longer exists. -/
inductive ChildState where
  | running (eventualSts : Nat) (eventualRu : Int × Int)
  | zombie (sts : Nat) (ru : Int × Int)
  | reaped
deriving Repr, DecidableEq

/-- POSIX kernel-side state seen by the handle: the child, plus a finite stream
of errnos that the next `wait4` calls will raise before delivering a real
result (the environment's way of injecting EINTR and other syscall errors). -/
structure OSState where
  errs : List Nat
  child : ChildState
deriving Repr, DecidableEq

/-- Result of one `os.wait4`-style syscall. -/
inductive Wait4Res where
  | ok (rpid sts : Nat) (utime stime : Int)
  | err (errno : Nat)
deriving Repr, DecidableEq

/-- Embeds the `os.wait4` syscall on the modeled child: with `WNOHANG` a
running child reports pid 0; a blocking call suspends until the child exits
and reaps it; a zombie is reaped immediately; a reaped pid gives ECHILD. -/
def os_wait4 (pid opts : Nat) : ChildState → Wait4Res × ChildState
  | .running e ru =>
      if opts &&& WNOHANG != 0 then (.ok 0 0 0 0, .running e ru)
      else (.ok pid e ru.1 ru.2, .reaped)
  | .zombie sts ru => (.ok pid sts ru.1 ru.2, .reaped)
  | .reaped => (.err ECHILD, .reaped)

/-- The POSIX branch of the `Popen` class: pid, the normalized return code
(None until an exit is observed), and the timing fields set in `__init__`. -/
structure Popen where
  pid : Nat
  returncode : Option Int
  starttime : Int
  rtime : Int
  utime : Int
  stime : Int
deriving Repr, DecidableEq

/-- Embeds `Popen.__init__` (POSIX branch): records the start time, zeroes the
timing fields, and leaves `returncode` unset; the child is spawned with the
`setpgid_preexec_fn` wrapper installed (see `posixSpawnChildTrace`). -/
def Popen.init (pid : Nat) (now : Int) : Popen :=
  { pid := pid, returncode := none, starttime := now,
    rtime := 0, utime := 0, stime := 0 }

/-- Loop of `Popen._wait4_no_intr`, recursing structurally on the stream of
injected errnos: each `_wait4` call either raises the next injected errno —
retried when it is EINTR, re-raised otherwise — or, once the stream is empty,
performs the real reap. -/
def wait4_no_intr_go (pid options : Nat) (c : ChildState) :
    List Nat → Except PyErr (Nat × Nat × Int × Int) × OSState
  | e :: rest =>
      -- this `_wait4` call raises OSError(e)
      if e = EINTR then wait4_no_intr_go pid options c rest
      else (.error (.osError e), ⟨rest, c⟩)
  | [] =>
      -- no injected errno: `_wait4` performs the real reap
      match os_wait4 pid (options ||| WEXITED) c with
      | (.err e, c') => (.error (.osError e), ⟨[], c'⟩)
      | (.ok rpid sts ut st, c') => (.ok (rpid, sts, ut, st), ⟨[], c'⟩)

/-- Embeds `Popen._wait4_no_intr`: call `_wait4` in a loop, retrying while the
raised OSError is EINTR and re-raising any other errno; `options | WEXITED` is
passed down exactly as in the source. -/
def Popen.wait4_no_intr (pid options : Nat) (os : OSState) :
    Except PyErr (Nat × Nat × Int × Int) × OSState :=
  wait4_no_intr_go pid options os.child os.errs

/-- Embeds `Popen._wait`: reap via `_wait4_no_intr`; when a nonzero pid was
returned, record the real, user and system times from the rusage. -/
def Popen.pwait (self : Popen) (options : Nat) (now : Int) (os : OSState) :
    Except PyErr (Nat × Nat) × Popen × OSState :=
  match Popen.wait4_no_intr self.pid options os with
  | (.error e, os') => (.error e, self, os')
  | (.ok (pid, sts, ut, st), os') =>
      if pid ≠ 0 then
        (.ok (pid, sts),
         { self with rtime := now - self.starttime, utime := ut, stime := st }, os')
      else (.ok (pid, sts), self, os')

/-- Embeds the `_wait4` staticmethod installed when `os.wait4` is missing:
call `os.wait3(options)` — `w3` is the triple that syscall returned — and
check the reaped pid, raising when a nonzero pid differs from the expected
one and returning the triple unchanged otherwise. -/
def wait4_fallback (pid : Nat) (w3 : Nat × Nat × (Int × Int)) :
    Except PyErr (Nat × Nat × (Int × Int)) :=
  match w3 with
  | (rpid, status, rusage) =>
      if rpid ≠ 0 ∧ rpid ≠ pid then
        .error (.exception s!"Waiting for pid {pid} but unexpected pid {rpid} exited")
      else .ok (rpid, status, rusage)

/-- Embeds `subprocess.Popen._handle_exitstatus`, the stdlib status decoder the
class inherits: death by signal decodes to the negated signal number, a normal
exit to the exit-code byte, and anything else raises RuntimeError. -/
def Popen.handle_exitstatus (self : Popen) (sts : Nat) : Except PyErr Popen :=
  if WIFSIGNALED sts then
    .ok { self with returncode := some (-(WTERMSIG sts : Int)) }
  else if WIFEXITED sts then
    .ok { self with returncode := some (WEXITSTATUS sts : Int) }
  else
    .error (.exception "Unknown child exit status!")

/-- Normalized return code that `_handle_exitstatus` records for a decodable
wait status. -/
def decodedStatus (sts : Nat) : Int :=
  if WIFSIGNALED sts then -(WTERMSIG sts : Int) else (WEXITSTATUS sts : Int)

/-- Embeds `Popen._waitforstatus` (POSIX): when no return code is recorded yet,
block in `_wait(0)` and decode the resulting status; returns the `returncode`
attribute. -/
def Popen.waitforstatus (self : Popen) (now : Int) (os : OSState) :
    Except PyErr (Option Int) × Popen × OSState :=
  match self.returncode with
  | some _ => (.ok self.returncode, self, os)
  | none =>
      match Popen.pwait self 0 now os with
      | (.error e, self', os') => (.error e, self', os')
      | (.ok (_, sts), self', os') =>
          match Popen.handle_exitstatus self' sts with
          | .error e => (.error e, self', os')
          | .ok self'' => (.ok self''.returncode, self'', os')

/-- Embeds `Popen.poll` (POSIX branch): a WNOHANG reap wrapped in
`try ... except os.error`; an OSError from the reap is caught and, when a
`_deadstate` was given, recorded as the return code (the RuntimeError that
`_handle_exitstatus` can raise is not an `os.error` and propagates). -/
def Popen.poll (self : Popen) (deadstate : Option Int) (now : Int) (os : OSState) :
    Except PyErr (Option Int) × Popen × OSState :=
  match self.returncode with
  | some _ => (.ok self.returncode, self, os)
  | none =>
      match Popen.pwait self WNOHANG now os with
      | (.error (.osError _), self', os') =>
          match deadstate with
          | some d => (.ok (some d), { self' with returncode := some d }, os')
          | none => (.ok self'.returncode, self', os')
      | (.error e, self', os') => (.error e, self', os')
      | (.ok (pid, sts), self', os') =>
          if pid = self'.pid then
            match Popen.handle_exitstatus self' sts with
            | .error e => (.error e, self', os')
            | .ok self'' => (.ok self''.returncode, self'', os')
          else (.ok self'.returncode, self', os')

/-- Embeds `os.killpg(pgid, sig)` on the modeled child: a reaped pid no longer
exists (ESRCH); a running child dies with the delivered signal; a signal sent
to a zombie is accepted and has no effect. Descendants in the group are
outside the modeled state, which tracks the one child the handle owns. -/
def os_killpg (sig : Nat) : ChildState → Except PyErr ChildState
  | .reaped => .error (.osError ESRCH)
  | .running _ ru => .ok (.zombie (sig % 128) ru)
  | .zombie s ru => .ok (.zombie s ru)

/-- Embeds `os.kill(pid, sig)`: same semantics as `os_killpg` on the one
modeled child, but addressed to the single pid rather than the group. -/
def os_kill (sig : Nat) : ChildState → Except PyErr ChildState
  | .reaped => .error (.osError ESRCH)
  | .running _ ru => .ok (.zombie (sig % 128) ru)
  | .zombie s ru => .ok (.zombie s ru)

/-- Embeds `Popen.kill` (POSIX branch): deliver SIGKILL to the whole group or
to the single pid, then set `self.returncode = -9`; when the signal call
raises, the assignment is skipped and the OSError propagates to the caller. -/
def Popen.kill (self : Popen) (group : Bool) (os : OSState) :
    Except PyErr Unit × Popen × OSState :=
  match (if group then os_killpg SIGKILL os.child else os_kill SIGKILL os.child) with
  | .error e => (.error e, self, os)
  | .ok c' => (.ok (), { self with returncode := some (-9) }, { os with child := c' })

/-- Observable actions of a `wait(timeout)` call, used to state what the call
did and did not do (spawn the timer thread, attempt a kill, signal the done
event, join the timer thread). -/
inductive Act where
  | timerSpawned
  | eventSet
  | joined
  | killAttempted (group : Bool)
  | killSucceeded (group : Bool)
  | killRaised (errno : Nat)
deriving Repr, DecidableEq

/-- Embeds `killerthread`, the body of the timer thread started by the POSIX
`wait(timeout)` path: `doneevent.wait(timeout)` returns either because the
event was set or because the timeout elapsed — `eventSet` records which — and
the body then attempts `self.kill(group)` unconditionally in both cases,
swallowing an OSError. -/
def killerthread (self : Popen) (group : Bool) (eventSet : Bool) (os : OSState) :
    Popen × OSState × List Act :=
  -- the body does not consult `eventSet`: the kill attempt always runs
  match Popen.kill self group os with
  | (.error (.osError e), self', os') => (self', os', [.killAttempted group, .killRaised e])
  | (.error _, self', os') => (self', os', [.killAttempted group])
  | (.ok _, self', os') => (self', os', [.killAttempted group, .killSucceeded group])

/-- Embeds `Popen.wait` (POSIX branch). `timedOut` is the scheduler's choice
of which watcher fires first when a finite timeout is given: `false` means the
blocking reap observes the exit before the deadline, `true` means the deadline
elapses while the calling thread is still blocked in the reap. The returned
trace lists the observable actions in order. -/
def Popen.wait (self : Popen) (timeout : Int) (group : Bool) (timedOut : Bool)
    (now : Int) (os : OSState) :
    Except PyErr (Option Int) × Popen × OSState × List Act :=
  match self.returncode with
  | some _ => (.ok self.returncode, self, os, [])
  | none =>
      if timeout = -1 then
        match Popen.waitforstatus self now os with
        | (r, self', os') => (r, self', os', [])
      else
        if timedOut then
          -- the calling thread enters `_waitforstatus` (returncode is None)
          -- and blocks in `_wait(0)`; the deadline elapses first and the
          -- killer thread fires with the done event still clear:
          match killerthread self group false os with
          | (self1, os1, tr) =>
              -- the blocked reap returns, observing the killed status; the
              -- finally block then sets the event and joins the timer thread
              match Popen.pwait self1 0 now os1 with
              | (.error e, self2, os2) =>
                  (.error e, self2, os2, [.timerSpawned] ++ tr ++ [.eventSet, .joined])
              | (.ok (_, sts), self2, os2) =>
                  match Popen.handle_exitstatus self2 sts with
                  | .error e =>
                      (.error e, self2, os2, [.timerSpawned] ++ tr ++ [.eventSet, .joined])
                  | .ok self3 =>
                      (.ok self3.returncode, self3, os2,
                        [.timerSpawned] ++ tr ++ [.eventSet, .joined])
        else
          -- the process exits first: `_waitforstatus` completes, then the
          -- finally block sets the done event and joins the killer thread,
          -- which wakes with the event set and still runs its kill attempt
          match Popen.waitforstatus self now os with
          | (.ok _, self1, os1) =>
              match killerthread self1 group true os1 with
              | (self2, os2, tr) =>
                  (.ok self2.returncode, self2, os2,
                    [.timerSpawned, .eventSet] ++ tr ++ [.joined])
          | (.error e, self1, os1) =>
              match killerthread self1 group true os1 with
              | (self2, os2, tr) =>
                  (.error e, self2, os2, [.timerSpawned, .eventSet] ++ tr ++ [.joined])

/-! ### The mswindows branch -/

/-- Names bound at module top level in `killableprocess.py` when the mswindows
branch is taken: the imports (the plain `import winprocess` form, never the
from-import form), the module constants and the module-level defs. The bare names
`WaitForSingleObject` and `WAIT_OBJECT_0` used inside the mswindows `poll`
are not among them. -/
def moduleGlobals : List String :=
  ["subprocess", "sys", "os", "time", "types", "threading",
   "CalledProcessError", "mswindows", "aix5", "WEXITED", "winprocess",
   "call", "check_call", "Popen"]

/-- Resolution of a bare global name at runtime: an unbound name raises
`NameError`. -/
def lookupGlobal (n : String) : Except PyErr Unit :=
  if moduleGlobals.contains n then .ok () else .error (.nameError n)

/-- Kernel-side state of the one Windows child process: still running (with
the exit code it will eventually report) or exited. -/
inductive WinProcState where
  | running (eventualCode : Int)
  | exited (code : Int)
deriving Repr, DecidableEq

/-- Windows kernel-side state seen by the handle: the child process plus the
user/kernel times (in 100-nanosecond ticks) its handle reports. -/
structure WinOS where
  proc : WinProcState
  userTimeTicks : Int
  kernelTimeTicks : Int
deriving Repr, DecidableEq

/-- Return value of a satisfied `WaitForSingleObject`. -/
def WAIT_OBJECT_0 : Nat := 0
/-- Return value of a `WaitForSingleObject` whose deadline elapsed. -/
def WAIT_TIMEOUT : Nat := 258

/-- Modelled from the spec: `winprocess.WaitForSingleObject` (the `winprocess`
module of this repository is not under src/). Blocks on the process handle up
to the deadline; the handle is signaled exactly when the process has exited.
`timesOut` is the environment's determination that the deadline elapses before
the exit: impossible for an infinite (-1) timeout, immediate for a zero
timeout on a still-running process. -/
def winWaitForSingleObject (proc : WinProcState) (timesOut : Bool) :
    Nat × WinProcState :=
  match proc with
  | .exited c => (WAIT_OBJECT_0, .exited c)
  | .running c =>
      if timesOut then (WAIT_TIMEOUT, .running c)
      else (WAIT_OBJECT_0, .exited c)

/-- Modelled from the spec: `winprocess.GetExitCodeProcess` reads the exit
code directly via the native handle (a still-running process reports the
STILL_ACTIVE pseudo-code 259; the source only calls this after the handle was
signaled). -/
def GetExitCodeProcess : WinProcState → Int
  | .exited c => c
  | .running _ => 259

/-- Modelled from the spec: `winprocess.TerminateJobObject` forcefully
terminates every process in the job with the given exit code; per the spec,
terminating a job whose processes have already exited is benign and does not
raise. -/
def TerminateJobObject (proc : WinProcState) (code : Int) : WinProcState :=
  match proc with
  | .running _ => .exited code
  | .exited c => .exited c

/-- Modelled from the spec: `winprocess.TerminateProcess` forcefully
terminates the one process with the given exit code; per the spec, an
already-exited process is a benign no-op. -/
def TerminateProcess (proc : WinProcState) (code : Int) : WinProcState :=
  match proc with
  | .running _ => .exited code
  | .exited c => .exited c

/-- The mswindows branch of the `Popen` class: pid, the return code (None
until observed), and the timing fields set in `_execute_child`. -/
structure WinPopen where
  pid : Nat
  returncode : Option Int
  starttime : Int
  rtime : Int
  utime : Int
  stime : Int
deriving Repr, DecidableEq

/-- Embeds `Popen._getstatus` (mswindows): record the exit code read from the
handle as the return code, and the real/user/system times, converting the
100-nanosecond tick counts to seconds (integer-valued in this model); returns
the `returncode` attribute. -/
def WinPopen.getstatus (self : WinPopen) (now : Int) (os : WinOS) :
    Option Int × WinPopen × WinOS :=
  let self' := { self with
    returncode := some (GetExitCodeProcess os.proc),
    rtime := now - self.starttime,
    utime := os.userTimeTicks / 10000000,
    stime := os.kernelTimeTicks / 10000000 }
  (self'.returncode, self', os)

/-- Embeds `Popen.poll` (mswindows branch). The body reads the bare names
`WaitForSingleObject` and `WAIT_OBJECT_0`; each is resolved against the module
namespace before the call can proceed, and the module binds neither (it only
does `import winprocess`), so the first lookup raises NameError. The branch
after a successful lookup transcribes the intended zero-timeout check and is
unreachable. -/
def WinPopen.poll (self : WinPopen) (now : Int) (os : WinOS) :
    Except PyErr (Option Int) × WinPopen × WinOS :=
  match self.returncode with
  | some _ => (.ok self.returncode, self, os)
  | none =>
      match lookupGlobal "WaitForSingleObject", lookupGlobal "WAIT_OBJECT_0" with
      | .error e, _ => (.error e, self, os)
      | _, .error e => (.error e, self, os)
      | .ok _, .ok _ =>
          let (rc, proc') := winWaitForSingleObject os.proc true
          if rc = WAIT_OBJECT_0 then
            let (_, self', os') := WinPopen.getstatus self now { os with proc := proc' }
            (.ok self'.returncode, self', os')
          else (.ok self.returncode, self, { os with proc := proc' })

/-- Embeds `Popen.kill` (mswindows branch): terminate the job (group) or the
single process with exit code 127, then set `self.returncode = 127`
unconditionally. -/
def WinPopen.kill (self : WinPopen) (group : Bool) (os : WinOS) :
    Except PyErr Unit × WinPopen × WinOS :=
  let proc' := if group then TerminateJobObject os.proc 127
               else TerminateProcess os.proc 127
  (.ok (), { self with returncode := some 127 }, { os with proc := proc' })

/-- Embeds `Popen.wait` (mswindows branch): a recorded return code is returned
immediately; otherwise block on the handle (a finite timeout is converted to
milliseconds; `timedOut` is the environment's determination that the deadline
elapsed first, impossible for timeout -1); on WAIT_TIMEOUT invoke `kill`,
otherwise fetch the status; return the `returncode` attribute. -/
def WinPopen.wait (self : WinPopen) (timeout : Int) (group : Bool)
    (timedOut : Bool) (now : Int) (os : WinOS) :
    Except PyErr (Option Int) × WinPopen × WinOS × List Act :=
  match self.returncode with
  | some _ => (.ok self.returncode, self, os, [])
  | none =>
      let (rc, proc') := winWaitForSingleObject os.proc (timeout != -1 && timedOut)
      let os1 := { os with proc := proc' }
      if rc = WAIT_TIMEOUT then
        match WinPopen.kill self group os1 with
        | (_, self', os') =>
            (.ok self'.returncode, self', os',
              [.killAttempted group, .killSucceeded group])
      else
        let (_, self', os') := WinPopen.getstatus self now os1
        (.ok self'.returncode, self', os', [])

/-! ### The convenience layer: `call` and `check_call` -/

/-- Embeds `call`: construct a `Popen` from the arguments and wait on it,
forwarding only the `timeout` keyword, so `wait` runs with its default
`group=True`. The handle and OS state stand for the freshly spawned
`Popen(*args, **kwargs)`. -/
def call (self : Popen) (timeout : Int) (timedOut : Bool) (now : Int)
    (os : OSState) : Except PyErr (Option Int) × Popen × OSState × List Act :=
  Popen.wait self timeout true timedOut now os

/-- Embeds `check_call`: run `call`; a truthy return code (nonzero and not
None) raises `CalledProcessError` carrying the code and the command, where
the command is `kwargs.get("args")` when given and `args[0]` otherwise. -/
def check_call (self : Popen) (posArg0 : String) (kwargsArgs : Option String)
    (timeout : Int) (timedOut : Bool) (now : Int) (os : OSState) :
    Except PyErr Unit × Popen × OSState × List Act :=
  match call self timeout timedOut now os with
  | (.error e, self', os', tr) => (.error e, self', os', tr)
  | (.ok rc, self', os', tr) =>
      match rc with
      | some n =>
          if n ≠ 0 then
            let cmd := match kwargsArgs with
              | some c => c
              | none => posArg0
            (.error (.calledProcessError n cmd), self', os', tr)
          else (.ok (), self', os', tr)
      | none => (.ok (), self', os', tr)

/-! ### Spawn-time group anchoring -/

/-- Actions the child of a POSIX spawn performs between fork and the start of
the target program. -/
inductive ChildAct where
  | setpgid (a b : Nat)
  | userPreexec
  | exec
deriving Repr, DecidableEq

/-- Embeds the `setpgid_preexec_fn` closure that `Popen.__init__` (POSIX)
installs as `preexec_fn`: run `os.setpgid(0, 0)` first, then the caller's
original `preexec_fn` if one was given. -/
def setpgid_preexec_fn (realPreexecFn : Bool) : List ChildAct :=
  [.setpgid 0 0] ++ (if realPreexecFn then [.userPreexec] else [])

/-- Action sequence of the child side of a POSIX spawn: the installed
`preexec_fn` runs in the child after fork and before exec (stdlib
`subprocess` semantics). -/
def posixSpawnChildTrace (realPreexecFn : Bool) : List ChildAct :=
  setpgid_preexec_fn realPreexecFn ++ [.exec]

/-- Process-creation flag: create the initial thread suspended. -/
def CREATE_SUSPENDED : Nat := 4
/-- Process-creation flag: the environment block is Unicode. -/
def CREATE_UNICODE_ENVIRONMENT : Nat := 1024

/-- Observable spawn-time actions of the mswindows `_execute_child`. -/
inductive WinAct where
  | createJobObject
  | createProcess (creationflags : Nat)
  | assignProcessToJobObject
  | resumeThread
deriving Repr, DecidableEq

/-- Embeds the process-creation tail of `Popen._execute_child` (mswindows):
create the job object, create the process with CREATE_SUSPENDED and
CREATE_UNICODE_ENVIRONMENT ORed into the caller's creation flags, assign the
new process to the job, and only then resume its initial thread. -/
def execute_child_trace (creationflags : Nat) : List WinAct :=
  [.createJobObject,
   .createProcess ((creationflags ||| CREATE_SUSPENDED) ||| CREATE_UNICODE_ENVIRONMENT),
   .assignProcessToJobObject,
   .resumeThread]

/-! ### Fixtures used by witnesses and counterexamples -/

/-- Fixture: a freshly spawned POSIX handle with pid 5 started at time 0. -/
def sFresh : Popen := Popen.init 5 0

/-- Fixture: a POSIX handle that has already recorded return code 5. -/
def sDone : Popen := { Popen.init 5 0 with returncode := some 5 }

/-- Fixture: a POSIX handle that has already recorded return code 1. -/
def sExited1 : Popen := { Popen.init 5 0 with returncode := some 1 }

/-- Fixture: a running child that will exit with status 0, no injected
errnos. -/
def osRunning : OSState := { errs := [], child := .running 0 (2, 3) }

/-- Fixture: an already-reaped child, no injected errnos. -/
def osReaped : OSState := { errs := [], child := .reaped }

/-- Fixture: a fresh mswindows handle with pid 5 started at time 0. -/
def wFresh : WinPopen :=
  { pid := 5, returncode := none, starttime := 0, rtime := 0, utime := 0, stime := 0 }

/-- Fixture: an mswindows handle that has already recorded return code 5. -/
def wDone : WinPopen := { wFresh with returncode := some 5 }

/-- Fixture: an mswindows handle that has already recorded return code 0. -/
def wExited0 : WinPopen := { wFresh with returncode := some 0 }

/-- Fixture: a running Windows child that would exit with code 0. -/
def wosRunning : WinOS := { proc := .running 0, userTimeTicks := 0, kernelTimeTicks := 0 }

/-- Fixture: a Windows child that has exited with code 0. -/
def wosExited : WinOS := { proc := .exited 0, userTimeTicks := 0, kernelTimeTicks := 0 }

/-! ### Claims -/

/-- C3: `wait()` is idempotent after exit. On either backend, once
`returncode` is set, any `wait(timeout, group)` call returns exactly that
code immediately, leaves the handle and OS state untouched, and performs no
observable action (no blocking reap, no timer thread spawned, no kill
issued: empty action trace); two consecutive `wait` calls return the
identical value. -/
theorem c3_wait_idempotent_after_exit
    (rc t t2 now now2 : Int) (g g2 td td2 : Bool)
    (s : Popen) (os : OSState) (w : WinPopen) (wos : WinOS)
    (hs : s.returncode = some rc) (hw : w.returncode = some rc) :
    Popen.wait s t g td now os = (.ok (some rc), s, os, []) ∧
    Popen.wait s t2 g2 td2 now2 os = (.ok (some rc), s, os, []) ∧
    WinPopen.wait w t g td now wos = (.ok (some rc), w, wos, []) ∧
    WinPopen.wait w t2 g2 td2 now2 wos = (.ok (some rc), w, wos, []) := by
  refine ⟨?_, ?_, ?_, ?_⟩ <;> simp [Popen.wait, WinPopen.wait, hs, hw]

/-- Witness for C3 at a concrete handle with recorded return code 5. -/
theorem c3_wait_idempotent_after_exit_witness :
    Popen.wait sDone 10 true false 7 osReaped = (.ok (some 5), sDone, osReaped, []) ∧
    Popen.wait sDone (-1) true false 8 osReaped = (.ok (some 5), sDone, osReaped, []) ∧
    WinPopen.wait wDone 10 true false 7 wosExited = (.ok (some 5), wDone, wosExited, []) ∧
    WinPopen.wait wDone (-1) true false 8 wosExited = (.ok (some 5), wDone, wosExited, []) :=
  c3_wait_idempotent_after_exit 5 10 (-1) 7 8 true true false false
    sDone osReaped wDone wosExited rfl rfl

/-- C4: when `kill(group)` returns normally, the handle's `returncode` is set
synchronously to the killed-by-force sentinel — -9 (negated SIGKILL) on the
POSIX branch, the fixed value 127 on the mswindows branch — for both the
`group=True` and the `group=False` branch (the quantified `g`). -/
theorem c4_kill_sets_sentinel (s : Popen) (g : Bool) (os : OSState)
    (w : WinPopen) (wos : WinOS)
    (h : (Popen.kill s g os).1 = .ok ()) :
    (Popen.kill s g os).2.1.returncode = some (-9) ∧
    (WinPopen.kill w g wos).2.1.returncode = some 127 := by
  constructor
  · unfold Popen.kill at h ⊢
    cases hc : (if g then os_killpg SIGKILL os.child else os_kill SIGKILL os.child) with
    | error e => rw [hc] at h; simp at h
    | ok c' => rfl
  · simp [WinPopen.kill]

/-- Witness for C4: killing a concrete running child on each backend. -/
theorem c4_kill_sets_sentinel_witness :
    (Popen.kill sFresh true osRunning).2.1.returncode = some (-9) ∧
    (WinPopen.kill wFresh true wosRunning).2.1.returncode = some 127 :=
  c4_kill_sets_sentinel sFresh true osRunning wFresh wosRunning rfl

/-- C8: the wait3-based `_wait4` fallback raises (fatally, with no retry)
exactly when the reaped pid is nonzero and differs from the expected pid, and
returns the `(pid, status, rusage)` triple unchanged otherwise. -/
theorem c8_wait3_fallback_pid_check (pid rpid status : Nat) (ru : Int × Int) :
    (rpid ≠ 0 ∧ rpid ≠ pid →
      wait4_fallback pid (rpid, status, ru) =
        .error (.exception s!"Waiting for pid {pid} but unexpected pid {rpid} exited")) ∧
    (rpid = 0 ∨ rpid = pid →
      wait4_fallback pid (rpid, status, ru) = .ok (rpid, status, ru)) := by
  constructor
  · intro h
    simp only [wait4_fallback]
    rw [if_pos h]
  · rintro (h | h) <;> simp [wait4_fallback, h]

/-- Witness for C8: expecting pid 5, an exit of pid 7 raises and an exit of
pid 5 is returned unchanged. -/
theorem c8_wait3_fallback_pid_check_witness :
    wait4_fallback 5 (7, 1, (0, 0)) =
      .error (.exception "Waiting for pid 5 but unexpected pid 7 exited") ∧
    wait4_fallback 5 (5, 1, (0, 0)) = .ok (5, 1, (0, 0)) :=
  ⟨(c8_wait3_fallback_pid_check 5 7 1 (0, 0)).1 ⟨by decide, by decide⟩,
   (c8_wait3_fallback_pid_check 5 5 1 (0, 0)).2 (Or.inr rfl)⟩

/-- C9: when the spawned process's wait produced the normalized return code
`rc`, `check_call` raises `CalledProcessError` carrying `rc` and the original
command (the `args` keyword when given, else the first positional argument)
exactly when `rc` is nonzero, and completes without error on zero. -/
theorem c9_check_call_raises_iff_nonzero
    (s : Popen) (cmd0 : String) (kcmd : Option String) (t : Int) (td : Bool)
    (now : Int) (os : OSState) (rc : Int) (s' : Popen) (os' : OSState)
    (tr : List Act)
    (h : call s t td now os = (.ok (some rc), s', os', tr)) :
    ((check_call s cmd0 kcmd t td now os).1 =
        .error (.calledProcessError rc (kcmd.getD cmd0)) ↔ rc ≠ 0) ∧
    (rc = 0 → (check_call s cmd0 kcmd t td now os).1 = .ok ()) := by
  unfold check_call
  rw [h]
  by_cases hrc : rc = 0
  · simp [hrc]
  · cases kcmd <;> simp [hrc, Option.getD]

/-- Witness for C9: a handle whose process exited with code 1; `check_call`
raises `CalledProcessError(1, "mycmd")`. -/
theorem c9_check_call_raises_iff_nonzero_witness :
    ((check_call sExited1 "mycmd" none 5 false 7 osReaped).1 =
        .error (.calledProcessError 1 "mycmd") ↔ (1 : Int) ≠ 0) ∧
    ((1 : Int) = 0 → (check_call sExited1 "mycmd" none 5 false 7 osReaped).1 = .ok ()) :=
  c9_check_call_raises_iff_nonzero sExited1 "mycmd" none 5 false 7 osReaped 1
    sExited1 osReaped [] rfl

/-- C10: spawning establishes the group anchor before the child can create
descendants. POSIX: the child-side action sequence begins with
`setpgid(0, 0)` (new process group with the child as leader) and `exec` comes
last, after it. mswindows: the process is created with the CREATE_SUSPENDED
bit set in its creation flags, is assigned to the freshly created job object,
and only then is its initial thread resumed. -/
theorem c10_spawn_group_anchor_before_children (b : Bool) (cf : Nat) :
    ((posixSpawnChildTrace b).head? = some (.setpgid 0 0) ∧
      (posixSpawnChildTrace b).getLast? = some .exec) ∧
    (∃ flags, flags &&& CREATE_SUSPENDED ≠ 0 ∧
      execute_child_trace cf =
        [.createJobObject, .createProcess flags,
         .assignProcessToJobObject, .resumeThread]) := by
  refine ⟨⟨?_, ?_⟩,
    ⟨(cf ||| CREATE_SUSPENDED) ||| CREATE_UNICODE_ENVIRONMENT, ?_, rfl⟩⟩
  · cases b <;> rfl
  · cases b <;> rfl
  · intro h
    have hb : Nat.testBit 4 2 = true := by decide
    have h2 : (((cf ||| CREATE_SUSPENDED) ||| CREATE_UNICODE_ENVIRONMENT) &&&
        CREATE_SUSPENDED).testBit 2 = true := by
      simp [Nat.testBit_land, Nat.testBit_lor, CREATE_SUSPENDED,
        CREATE_UNICODE_ENVIRONMENT, hb]
    rw [h] at h2
    exact absurd h2 (by decide)

/-! ### Helper lemmas -/

/-- Helper: on any status that is not "stopped" (low seven bits 0x7f),
`_handle_exitstatus` succeeds and records exactly `decodedStatus`. -/
theorem handle_exitstatus_eq (s : Popen) (sts : Nat) (h : sts % 128 ≠ 127) :
    Popen.handle_exitstatus s sts =
      .ok { s with returncode := some (decodedStatus sts) } := by
  unfold Popen.handle_exitstatus decodedStatus WIFSIGNALED WIFEXITED
  by_cases h0 : sts % 128 = 0
  · simp [h0]
  · simp [h0, h]

/-- Helper: `_handle_exitstatus` never raises an OSError (its failure is a
RuntimeError). -/
theorem handle_exitstatus_no_oserror (s : Popen) (sts errno : Nat) :
    Popen.handle_exitstatus s sts ≠ .error (.osError errno) := by
  unfold Popen.handle_exitstatus
  split
  · simp
  · split <;> simp

/-- Helper: a blocking `_waitforstatus` on a running child with no injected
errnos reaps it and records the decoded status. -/
theorem waitforstatus_running (s : Popen) (now : Int) (e : Nat) (ru : Int × Int)
    (hrc : s.returncode = none) (he : e % 128 ≠ 127) :
    ∃ s', Popen.waitforstatus s now ⟨[], .running e ru⟩ =
        (.ok (some (decodedStatus e)), s', ⟨[], .reaped⟩) ∧
      s'.returncode = some (decodedStatus e) := by
  unfold Popen.waitforstatus Popen.pwait Popen.wait4_no_intr wait4_no_intr_go
    os_wait4
  rw [hrc]
  by_cases hp : s.pid = 0 <;>
    simp [hp, WNOHANG, WEXITED, handle_exitstatus_eq _ _ he]

/-- Helper: the timer-thread body on an already-reaped child: the kill attempt
raises OSError(ESRCH), the body swallows it, and handle and OS state are left
unchanged. -/
theorem killerthread_reaped (s : Popen) (g es : Bool) (os : OSState)
    (h : os.child = .reaped) :
    killerthread s g es os = (s, os, [.killAttempted g, .killRaised ESRCH]) := by
  cases g <;> simp [killerthread, Popen.kill, h, os_killpg, os_kill]

/-! ### Remaining claims -/

/-- C1 counterexample: a concrete POSIX `wait(timeout=10, group=True)` whose
blocking wait observes a normal exit (status 0, well before the deadline)
still has its timer task attempt the kill — `killAttempted` appears in the
action trace even though the winner is the normal exit — so the cancellation
signal is not checked before the kill is issued. -/
theorem c1_kill_attempted_despite_exit_counterexample :
    (Popen.wait sFresh 10 true false 7 osRunning).1 = .ok (some 0) ∧
    Act.killAttempted true ∈ (Popen.wait sFresh 10 true false 7 osRunning).2.2.2 := by
  decide

/-- C1 (amended): when the blocking wait observes process exit before the
deadline, the done event wakes the timer task early but does not suppress its
kill attempt: `killerthread` always attempts `kill`, the attempt hits the
already-reaped pid and raises OSError(ESRCH), which the timer body swallows —
so the normal exit outcome survives (the returned and recorded code is the
decoded exit status), but a kill attempt does appear in the trace. -/
theorem c1_exit_first_kill_attempted_but_swallowed
    (s : Popen) (g : Bool) (t now : Int) (e : Nat) (ru : Int × Int)
    (hrc : s.returncode = none) (ht : t ≠ -1) (he : e % 128 ≠ 127) :
    (Popen.wait s t g false now ⟨[], .running e ru⟩).1 =
      .ok (some (decodedStatus e)) ∧
    (Popen.wait s t g false now ⟨[], .running e ru⟩).2.1.returncode =
      some (decodedStatus e) ∧
    Act.killAttempted g ∈ (Popen.wait s t g false now ⟨[], .running e ru⟩).2.2.2 ∧
    Act.killRaised ESRCH ∈ (Popen.wait s t g false now ⟨[], .running e ru⟩).2.2.2 := by
  obtain ⟨s', hws, hrc'⟩ := waitforstatus_running s now e ru hrc he
  have hk := killerthread_reaped s' g true ⟨[], .reaped⟩ rfl
  simp [Popen.wait, hrc, ht, hws, hk, hrc']

/-- Witness for the amended C1 at a concrete exit-first wait. -/
theorem c1_exit_first_kill_attempted_but_swallowed_witness :
    (Popen.wait sFresh 10 true false 7 ⟨[], .running 0 (2, 3)⟩).1 =
      .ok (some (decodedStatus 0)) ∧
    (Popen.wait sFresh 10 true false 7 ⟨[], .running 0 (2, 3)⟩).2.1.returncode =
      some (decodedStatus 0) ∧
    Act.killAttempted true ∈
      (Popen.wait sFresh 10 true false 7 ⟨[], .running 0 (2, 3)⟩).2.2.2 ∧
    Act.killRaised ESRCH ∈
      (Popen.wait sFresh 10 true false 7 ⟨[], .running 0 (2, 3)⟩).2.2.2 :=
  c1_exit_first_kill_attempted_but_swallowed sFresh true 10 7 0 (2, 3)
    rfl (by decide) (by decide)

/-- C2 counterexample: on the mswindows branch, a handle whose `returncode`
was already recorded as 0 has it overwritten with 127 by a subsequent
`kill(group=True)` — a second, different terminal value. -/
theorem c2_kill_overwrites_returncode_counterexample :
    wExited0.returncode = some 0 ∧
    (WinPopen.kill wExited0 true wosExited).2.1.returncode = some 127 ∧
    some (127 : Int) ≠ some (0 : Int) := by
  decide

/-- C2 (amended): `wait` and `poll` never change an already-recorded
`returncode` on either backend (they return it immediately); `kill`, however,
writes the kill sentinel unconditionally whenever its termination call
succeeds and can therefore overwrite a previously recorded value. -/
theorem c2_wait_poll_preserve_returncode
    (rc t now : Int) (g td : Bool) (d : Option Int)
    (s : Popen) (os : OSState) (w : WinPopen) (wos : WinOS)
    (hs : s.returncode = some rc) (hw : w.returncode = some rc) :
    (Popen.wait s t g td now os).2.1.returncode = some rc ∧
    (Popen.poll s d now os).2.1.returncode = some rc ∧
    (WinPopen.wait w t g td now wos).2.1.returncode = some rc ∧
    (WinPopen.poll w now wos).2.1.returncode = some rc := by
  refine ⟨?_, ?_, ?_, ?_⟩ <;>
    simp [Popen.wait, Popen.poll, WinPopen.wait, WinPopen.poll, hs, hw]

/-- Witness for the amended C2 at concrete exited handles. -/
theorem c2_wait_poll_preserve_returncode_witness :
    (Popen.wait sDone 10 true false 7 osReaped).2.1.returncode = some 5 ∧
    (Popen.poll sDone none 7 osReaped).2.1.returncode = some 5 ∧
    (WinPopen.wait wDone 10 true false 7 wosExited).2.1.returncode = some 5 ∧
    (WinPopen.poll wDone 7 wosExited).2.1.returncode = some 5 :=
  c2_wait_poll_preserve_returncode 5 10 7 true false none
    sDone osReaped wDone wosExited rfl rfl

/-- C5 counterexample: a direct `kill(group=True)` on an already-exited
(reaped) POSIX process raises OSError(ESRCH) to the `kill()` caller rather
than recovering it internally. -/
theorem c5_direct_kill_raises_counterexample :
    Popen.kill sFresh true osReaped = (.error (.osError ESRCH), sFresh, osReaped) := by
  decide

/-- C5 (amended): the benign treatment of killing an already-exited process
exists only inside `wait()`'s timer thread: `killerthread`'s kill attempt on a
reaped pid raises OSError(ESRCH), which the thread body swallows, leaving the
handle and OS state unchanged, so nothing surfaces to the `wait()` caller; a
direct `kill()` call, by contrast, propagates that OSError to its caller. -/
theorem c5_already_exited_swallowed_only_in_killerthread
    (s : Popen) (g es : Bool) (os : OSState) (h : os.child = .reaped) :
    killerthread s g es os = (s, os, [.killAttempted g, .killRaised ESRCH]) ∧
    (Popen.kill s g os).1 = .error (.osError ESRCH) := by
  refine ⟨killerthread_reaped s g es os h, ?_⟩
  cases g <;> simp [Popen.kill, h, os_killpg, os_kill]

/-- Witness for the amended C5 at a concrete reaped child. -/
theorem c5_already_exited_swallowed_only_in_killerthread_witness :
    killerthread sFresh true true osReaped =
      (sFresh, osReaped, [.killAttempted true, .killRaised ESRCH]) ∧
    (Popen.kill sFresh true osReaped).1 = .error (.osError ESRCH) :=
  c5_already_exited_swallowed_only_in_killerthread sFresh true true osReaped rfl

/-- C6: on the mswindows branch, `poll` on a still-running process (recorded
return code unset) does not return None without raising: it raises NameError
for the unbound global `WaitForSingleObject` — the module only does
`import winprocess`, never binding the bare name — contradicting the
non-blocking, never-raises contract for a still-running process. -/
theorem c6_mswindows_poll_raises_nameerror :
    WinPopen.poll wFresh 7 wosRunning =
      (.error (.nameError "WaitForSingleObject"), wFresh, wosRunning) := by
  decide

/-- C7 counterexample: a non-EINTR OS error (ECHILD) raised during the reap
inside `poll()` is caught by its `except os.error` handler and swallowed — the
call returns None and no OS error propagates to the `poll()` caller. -/
theorem c7_poll_swallows_oserror_counterexample :
    (Popen.poll sFresh none 7 ⟨[ECHILD], .reaped⟩).1 = .ok none ∧
    (Popen.poll sFresh none 7 ⟨[ECHILD], .reaped⟩).1 ≠ .error (.osError ECHILD) := by
  decide

/-- C7 (amended): EINTR is retried transparently inside `_wait4_no_intr` (a
prefix of injected EINTRs does not change the result), and any other OS errno
raised during reaping propagates unmodified from `wait()`; `poll()`, however,
catches OS errors from the reap and never lets one propagate. -/
theorem c7_eintr_retried_other_oserrors_from_wait_only
    (pid opts n : Nat) (rest : List Nat) (c : ChildState)
    (s : Popen) (g td : Bool) (now : Int) (e : Nat) (erest : List Nat)
    (d : Option Int) (os : OSState) (errno : Nat)
    (hrc : s.returncode = none) (he : e ≠ EINTR) :
    Popen.wait4_no_intr pid opts ⟨List.replicate n EINTR ++ rest, c⟩ =
      Popen.wait4_no_intr pid opts ⟨rest, c⟩ ∧
    Popen.wait s (-1) g td now ⟨e :: erest, c⟩ =
      (.error (.osError e), s, ⟨erest, c⟩, []) ∧
    (Popen.poll s d now os).1 ≠ .error (.osError errno) := by
  refine ⟨?_, ?_, ?_⟩
  · induction n with
    | zero => simp
    | succ k ih =>
        simpa [Popen.wait4_no_intr, wait4_no_intr_go, List.replicate_succ] using ih
  · simp [Popen.wait, hrc, Popen.waitforstatus, Popen.pwait, Popen.wait4_no_intr,
      wait4_no_intr_go, he]
  · unfold Popen.poll
    cases hrc2 : s.returncode with
    | some rc => simp
    | none =>
        rcases hres : Popen.pwait s WNOHANG now os with ⟨r, s', os'⟩
        cases r with
        | error err => cases err <;> cases d <;> simp
        | ok pr =>
            obtain ⟨rpid, sts⟩ := pr
            cases hh : Popen.handle_exitstatus s' sts with
            | error e2 =>
                have hne : e2 ≠ .osError errno := by
                  intro hcon
                  rw [hcon] at hh
                  exact handle_exitstatus_no_oserror s' sts errno hh
                by_cases hpid : rpid = s'.pid <;> simp [hpid, hh, hne]
            | ok s'' =>
                by_cases hpid : rpid = s'.pid <;> simp [hpid, hh]

/-- Witness for the amended C7 at concrete streams: two injected EINTRs are
transparent, errno 13 (EACCES) propagates from a blocking `wait()`, and
`poll()` swallows a reap error instead of propagating it. -/
theorem c7_eintr_retried_other_oserrors_from_wait_only_witness :
    Popen.wait4_no_intr 5 0 ⟨List.replicate 2 EINTR ++ [], .running 768 (0, 0)⟩ =
      Popen.wait4_no_intr 5 0 ⟨[], .running 768 (0, 0)⟩ ∧
    Popen.wait sFresh (-1) true false 7 ⟨[13], .running 768 (0, 0)⟩ =
      (.error (.osError 13), sFresh, ⟨[], .running 768 (0, 0)⟩, []) ∧
    (Popen.poll sFresh none 7 ⟨[ECHILD], .reaped⟩).1 ≠ .error (.osError ECHILD) :=
  c7_eintr_retried_other_oserrors_from_wait_only 5 0 2 [] (.running 768 (0, 0))
    sFresh true false 7 13 [] none ⟨[ECHILD], .reaped⟩ ECHILD rfl (by decide)

end KillableProcess
